import Mathlib

/-!
Verification of the deployment controller in src/media/example.py.

Shallow embedding of the deployment script: `DeploymentManager.deploy` and its
helper steps (`_update_deployment`, `_wait_for_rollout`, `_verify_health`,
`_rollback`), `load_config`, and `main`.

Modelling choices, traceable to the source:
* A subprocess invocation (`subprocess.run`) is modelled by an
  `Except String CompletedProcess`: `.error e` means the call raised an
  exception with message `e`; `.ok r` means it returned a completed process
  with `r.returncode` and `r.stderr`.
* An HTTP probe (`session.get` in `_verify_health`) is modelled by a
  `ProbeOutcome`: `.resp status` for a response with the given HTTP status,
  `.exn msg` for a raised exception (timeout / connection error).
* The environment's responses are collected in a `Behavior` record; the
  health probe is a function of the attempt index (attempt 0 is the first).
* Every observable side effect (subprocess call, probe, log line, sleep) is
  recorded in order as an `Event`; functions return their value paired with
  the list of events they emit.
* Python exceptions propagating out of a block are `Except.error` carrying
  the message together with the events emitted before the raise; the
  `try/except` in `deploy` is the `match` in `deploy` that converts an
  escaping exception into the `False` return (outcome `ExceptionCaught`).
* `deploy` in the source returns a `bool`; the spec classifies it as a
  `DeployResult`.  The embedding tags each of `deploy`'s exit paths with a
  `DeployOutcome` constructor; `DeployOutcome.toBool` is the actual Python
  return value (`True` only for `Success`).
* The Python dataclass field `namespace` is a Lean keyword and is embedded
  as the field `«namespace»`.
-/

namespace DeployScript

/-- Severity of a log line (`logger.info` / `logger.warning` / `logger.error`). -/
inductive LogLevel
  | info
  | warning
  | error
  deriving DecidableEq, Repr

/-- One observable side effect of a run, in program order. -/
inductive Event
  | applyUpdate
  | waitForRollout
  | undo
  | probeGet (attempt : Nat)
  | log (level : LogLevel) (msg : String)
  | sleep (seconds : Nat)
  deriving DecidableEq, Repr

/-- Is this event the `kubectl rollout undo` subprocess call of `_rollback`? -/
def Event.isUndo : Event → Bool
  | .undo => true
  | _ => false

/-- Is this event the `kubectl rollout status` subprocess call of `_wait_for_rollout`? -/
def Event.isWaitForRollout : Event → Bool
  | .waitForRollout => true
  | _ => false

/-- Is this event a health probe (`session.get`) attempt? -/
def Event.isProbeGet : Event → Bool
  | .probeGet _ => true
  | _ => false

/-- Is this event the 10-second inter-attempt sleep (`asyncio.sleep(10)`)? -/
def Event.isSleep10 : Event → Bool
  | .sleep 10 => true
  | _ => false

/-- The `DeployConfig` dataclass (source lines 28-37), with its field defaults. -/
structure DeployConfig where
  service_name : String
  image_tag : String
  «namespace» : String := "default"
  replicas : Int := 3
  health_check_path : String := "/health"
  timeout_seconds : Int := 300
  rollback_on_failure : Bool := true
  deriving DecidableEq, Repr

/-- Result of a `subprocess.run` call that returned (did not raise). -/
structure CompletedProcess where
  returncode : Int
  stderr : String := ""
  deriving DecidableEq, Repr

/-- Outcome of one `session.get` health probe. -/
inductive ProbeOutcome
  | resp (status : Nat)
  | exn (msg : String)
  deriving DecidableEq, Repr

/-- The environment's responses to the controller's calls: the three
subprocess invocations and the health probe, indexed by attempt number. -/
structure Behavior where
  updateRun : Except String CompletedProcess
  rolloutRun : Except String CompletedProcess
  undoRun : Except String CompletedProcess
  probe : Nat → ProbeOutcome

/-- Embedding of `DeploymentManager._update_deployment` (source lines 73-88): run
`kubectl set image`; on non-zero return code log an error and return `False`,
otherwise log success and return `True`.  A raised exception escapes. -/
def update_deployment (b : Behavior) :
    Except (String × List Event) (Bool × List Event) :=
  match b.updateRun with
  | .error e => .error (e, [.applyUpdate])
  | .ok r =>
    if r.returncode ≠ 0 then
      .ok (false, [.applyUpdate,
        .log .error ("Failed to update deployment: " ++ r.stderr)])
    else
      .ok (true, [.applyUpdate, .log .info "Deployment updated successfully"])

/-- Embedding of `DeploymentManager._wait_for_rollout` (source lines 90-99): run
`kubectl rollout status --timeout=...`; return whether the return code is 0.
A raised exception escapes. -/
def wait_for_rollout (b : Behavior) :
    Except (String × List Event) (Bool × List Event) :=
  match b.rolloutRun with
  | .error e => .error (e, [.waitForRollout])
  | .ok r => .ok (decide (r.returncode = 0), [.waitForRollout])

/-- The `for attempt in range(5)` loop of `DeploymentManager._verify_health`
(source lines 106-117), starting at attempt index `attempt` with `fuel`
iterations left.  A response with status 200 logs and returns `True`; a
response with any other status falls through to the next iteration with no
log and no sleep; a raised exception is caught by the `except`, which logs a
warning naming the attempt and sleeps 10 seconds before the next iteration.
When the range is exhausted the function returns `False`. -/
def verify_health_aux (b : Behavior) : Nat → Nat → Bool × List Event
  | _, 0 => (false, [])
  | attempt, fuel + 1 =>
    match b.probe attempt with
    | .resp status =>
      if status = 200 then
        (true, [.probeGet attempt, .log .info "Health check passed"])
      else
        let rest := verify_health_aux b (attempt + 1) fuel
        (rest.1, .probeGet attempt :: rest.2)
    | .exn msg =>
      let rest := verify_health_aux b (attempt + 1) fuel
      (rest.1, .probeGet attempt ::
        .log .warning ("Health check attempt " ++ toString (attempt + 1) ++
          " failed: " ++ msg) ::
        .sleep 10 :: rest.2)

/-- Embedding of `DeploymentManager._verify_health` (source lines 101-117): up to 5 probe
attempts starting at attempt 0. -/
def verify_health (b : Behavior) : Bool × List Event :=
  verify_health_aux b 0 5

/-- Embedding of `DeploymentManager._rollback` (source lines 119-123): log a warning, run
`kubectl rollout undo`, and ignore the completed process entirely.  A raised
exception escapes. -/
def rollback (b : Behavior) : Except (String × List Event) (List Event) :=
  match b.undoRun with
  | .error e => .error (e, [.log .warning "Rolling back deployment", .undo])
  | .ok _ => .ok [.log .warning "Rolling back deployment", .undo]

/-- Classification of `deploy`'s exit paths, following the spec's
`DeployResult` tags.  `deploy` in the source returns only a `bool`
(`DeployOutcome.toBool`); the tag records which return site was taken:
`Success` = line 67, `UpdateFailed` = line 53, `RolledBack` = line 59 with
the rollback branch taken, `RolloutFailed` = line 59 without it,
`HealthCheckFailed` = line 64, `ExceptionCaught` = line 71 (the `except`). -/
inductive DeployOutcome
  | Success
  | UpdateFailed
  | RolloutFailed
  | RolledBack
  | HealthCheckFailed
  | ExceptionCaught (msg : String)
  deriving DecidableEq, Repr

/-- The Python return value of `deploy` for each exit path. -/
def DeployOutcome.toBool : DeployOutcome → Bool
  | .Success => true
  | _ => false

/-- The body of the `try` block of `DeploymentManager.deploy` (source lines
48-67): update, then wait for rollout (rolling back on failure when
configured), then verify health.  `.error` means an exception escaped the
`try` body. -/
def deployTry (cfg : DeployConfig) (b : Behavior) :
    Except (String × List Event) (DeployOutcome × List Event) :=
  let startEv := Event.log .info
    ("Starting deployment of " ++ cfg.service_name ++ ":" ++ cfg.image_tag)
  match update_deployment b with
  | .error (e, evs) => .error (e, startEv :: evs)
  | .ok (false, evs) => .ok (.UpdateFailed, startEv :: evs)
  | .ok (true, evs1) =>
    match wait_for_rollout b with
    | .error (e, evs2) => .error (e, startEv :: evs1 ++ evs2)
    | .ok (false, evs2) =>
      if cfg.rollback_on_failure then
        match rollback b with
        | .error (e, evs3) => .error (e, startEv :: evs1 ++ evs2 ++ evs3)
        | .ok evs3 => .ok (.RolledBack, startEv :: evs1 ++ evs2 ++ evs3)
      else
        .ok (.RolloutFailed, startEv :: evs1 ++ evs2)
    | .ok (true, evs2) =>
      let hv := verify_health b
      if hv.1 then
        .ok (.Success, startEv :: evs1 ++ evs2 ++ hv.2 ++
          [.log .info "Deployment completed successfully"])
      else
        .ok (.HealthCheckFailed, startEv :: evs1 ++ evs2 ++ hv.2 ++
          [.log .error "Health check failed after deployment"])

/-- Embedding of `DeploymentManager.deploy` (source lines 46-71).  The outer
`try/except Exception` catches every exception from the body, logs it, and
returns `False`; so the codomain's `.error` case (an exception propagating
to the caller) is never produced. -/
def deploy (cfg : DeployConfig) (b : Behavior) :
    Except String (DeployOutcome × List Event) :=
  match deployTry cfg b with
  | .ok (out, evs) => .ok (out, evs)
  | .error (e, evs) =>
    .ok (.ExceptionCaught e, evs ++ [.log .error ("Deployment failed: " ++ e)])

/-- The mapping parsed from the YAML config file, as far as the
`DeployConfig` dataclass is concerned: each dataclass field is present or
absent, and `extra_keys` lists any keys that are not dataclass fields
(which make `DeployConfig(**data)` raise a `TypeError`). -/
structure ConfigData where
  service_name : Option String := none
  image_tag : Option String := none
  «namespace» : Option String := none
  replicas : Option Int := none
  health_check_path : Option String := none
  timeout_seconds : Option Int := none
  rollback_on_failure : Option Bool := none
  extra_keys : List String := []
  deriving DecidableEq, Repr

/-- Embedding of `load_config` (source lines 125-135).  `file = none` models a missing
config file (`FileNotFoundError`); otherwise `DeployConfig(**data)` raises a
`TypeError` when a non-field key is present or a required field
(`service_name`, `image_tag` — the two dataclass fields without defaults)
is missing, and fills the declared defaults for absent optional fields.
No field value is validated. -/
def load_config (file : Option ConfigData) : Except String DeployConfig :=
  match file with
  | none => .error "FileNotFoundError: Config file not found"
  | some d =>
    if d.extra_keys ≠ [] then
      .error "TypeError: unexpected keyword argument"
    else
      match d.service_name, d.image_tag with
      | some sn, some it =>
        .ok { service_name := sn
              image_tag := it
              «namespace» := d.«namespace».getD "default"
              replicas := d.replicas.getD 3
              health_check_path := d.health_check_path.getD "/health"
              timeout_seconds := d.timeout_seconds.getD 300
              rollback_on_failure := d.rollback_on_failure.getD true }
      | _, _ => .error "TypeError: missing required argument"

/-- Embedding of `main` (source lines 137-161) after argument splitting: load the config,
overwrite `config.image_tag` with the second CLI argument, run `deploy`, and
exit 0 exactly on success.  Any exception (config load failure, or a fault
propagating out of `deploy`) is caught and yields exit code 1 with no
deployment result.  Returns the exit code and, when a deployment ran, the
config it ran with together with its outcome and event trace. -/
def main_run (file : Option ConfigData) (image_tag : String) (b : Behavior) :
    Nat × Option (DeployConfig × DeployOutcome × List Event) :=
  match load_config file with
  | .error _ => (1, none)
  | .ok cfg0 =>
    let cfg := { cfg0 with image_tag := image_tag }
    match deploy cfg b with
    | .ok (out, evs) => (if out.toBool then 0 else 1, some (cfg, out, evs))
    | .error _ => (1, none)

/-- Modelled from the spec: "DNS-label-safe" string (the source contains no
such check).  Non-empty, at most 63 characters, lowercase alphanumerics or
hyphen, not starting or ending with a hyphen. -/
def dnsLabelSafe (s : String) : Bool :=
  s.length > 0 && s.length ≤ 63 &&
  s.all (fun c => c.isLower || c.isDigit || c = '-') &&
  s.front ≠ '-' && s.back ≠ '-'

/-- Modelled from the spec: the claimed `DeployConfig` invariant —
timeout > 0, replicas ≥ 1, service identifier and namespace non-empty
DNS-label-safe strings (the source contains no such check). -/
def configInvariant (c : DeployConfig) : Bool :=
  decide (0 < c.timeout_seconds) && decide (1 ≤ c.replicas) &&
  dnsLabelSafe c.service_name && dnsLabelSafe c.«namespace»

/-! ## Concrete fixtures for witnesses and counterexamples -/

/-- A subprocess that exited with return code 0. -/
def okProc : CompletedProcess := { returncode := 0 }

/-- A subprocess that exited with return code 1. -/
def failProc : CompletedProcess := { returncode := 1, stderr := "boom" }

/-- The spec's scenario config `{service:"api", namespace:"prod", timeout:60,
rollback:true}`. -/
def cfgApi : DeployConfig :=
  { service_name := "api", image_tag := "v1", «namespace» := "prod",
    timeout_seconds := 60, rollback_on_failure := true }

/-- Behavior: update succeeds, rollout wait fails, undo succeeds, probes 200. -/
def bRolloutFail : Behavior :=
  { updateRun := .ok okProc, rolloutRun := .ok failProc,
    undoRun := .ok okProc, probe := fun _ => .resp 200 }

/-- Behavior: update fails with return code 1. -/
def bUpdateFail : Behavior :=
  { updateRun := .ok failProc, rolloutRun := .ok okProc,
    undoRun := .ok okProc, probe := fun _ => .resp 200 }

/-- Behavior: update and rollout succeed, probes answer 503, 503, then 200. -/
def bProbes503 : Behavior :=
  { updateRun := .ok okProc, rolloutRun := .ok okProc,
    undoRun := .ok okProc,
    probe := fun i => if i < 2 then .resp 503 else .resp 200 }

/-- Behavior: update and rollout succeed, the first two probes raise
(timeout / connection error), the third returns 200. -/
def bProbesExn : Behavior :=
  { updateRun := .ok okProc, rolloutRun := .ok okProc,
    undoRun := .ok okProc,
    probe := fun i => if i < 2 then .exn "timeout" else .resp 200 }

/-- Behavior: the update subprocess raises (e.g. `kubectl` not found). -/
def bUpdateRaises : Behavior :=
  { updateRun := .error "FileNotFoundError", rolloutRun := .ok okProc,
    undoRun := .ok okProc, probe := fun _ => .resp 200 }

/-- Config data carrying out-of-invariant values (`timeout_seconds = 0`,
`replicas = 0`) that the loader accepts unchanged. -/
def dataBad : ConfigData :=
  { service_name := some "api", image_tag := some "v1",
    replicas := some 0, timeout_seconds := some 0 }

/-- The config `load_config` builds from `dataBad`. -/
def cfgBad : DeployConfig :=
  { service_name := "api", image_tag := "v1", replicas := 0,
    timeout_seconds := 0 }

/-- Config data with only the spec-recognized fields and no `image_tag`. -/
def dataNoImageTag : ConfigData :=
  { service_name := some "api", «namespace» := some "prod",
    replicas := some 2, health_check_path := some "/health",
    timeout_seconds := some 60, rollback_on_failure := some true }

/-- The same config data with an (ignored) `image_tag` field added. -/
def dataFull : ConfigData :=
  { dataNoImageTag with image_tag := some "from-file" }

/-- The config a `dataFull` + CLI-tag `"v9"` run deploys with. -/
def cfgFullDeployed : DeployConfig :=
  { service_name := "api", image_tag := "v9", «namespace» := "prod",
    replicas := 2, health_check_path := "/health", timeout_seconds := 60,
    rollback_on_failure := true }

/-- The event trace of the `dataFull` + CLI-tag `"v9"` run. -/
def evsFullRun : List Event :=
  [.log .info "Starting deployment of api:v9", .applyUpdate,
   .log .info "Deployment updated successfully", .waitForRollout,
   .probeGet 0, .probeGet 1, .probeGet 2,
   .log .info "Health check passed",
   .log .info "Deployment completed successfully"]

/-! ## Lemmas about the health-check loop -/

/-- The loop returns `true` iff some probe within the remaining attempts
returns HTTP status 200. -/
theorem verify_health_aux_true_iff (b : Behavior) (fuel : Nat) :
    ∀ a, (verify_health_aux b a fuel).1 = true ↔
      ∃ k, k < fuel ∧ b.probe (a + k) = .resp 200 := by
  induction fuel with
  | zero => intro a; simp [verify_health_aux]
  | succ n ih =>
    intro a
    rcases h : b.probe a with status | msg
    · by_cases h200 : status = 200
      · subst h200
        exact iff_of_true (by simp [verify_health_aux, h])
          ⟨0, Nat.succ_pos n, by rw [Nat.add_zero]; exact h⟩
      · simp only [verify_health_aux, h, if_neg h200]
        rw [ih (a + 1)]
        constructor
        · rintro ⟨k, hk, hp⟩
          refine ⟨k + 1, by omega, ?_⟩
          have e : a + (k + 1) = a + 1 + k := by omega
          rw [e]; exact hp
        · rintro ⟨k, hk, hp⟩
          cases k with
          | zero =>
            exfalso
            rw [Nat.add_zero, h] at hp
            injection hp with h'
            exact h200 h'
          | succ k =>
            refine ⟨k, by omega, ?_⟩
            have e : a + 1 + k = a + (k + 1) := by omega
            rw [e]; exact hp
    · simp only [verify_health_aux, h]
      rw [ih (a + 1)]
      constructor
      · rintro ⟨k, hk, hp⟩
        refine ⟨k + 1, by omega, ?_⟩
        have e : a + (k + 1) = a + 1 + k := by omega
        rw [e]; exact hp
      · rintro ⟨k, hk, hp⟩
        cases k with
        | zero =>
          exfalso
          rw [Nat.add_zero, h] at hp
          exact ProbeOutcome.noConfusion hp
        | succ k =>
          refine ⟨k, by omega, ?_⟩
          have e : a + 1 + k = a + (k + 1) := by omega
          rw [e]; exact hp

/-- The loop makes at most `fuel` probe attempts. -/
theorem verify_health_aux_probe_count_le (b : Behavior) (fuel : Nat) :
    ∀ a, (verify_health_aux b a fuel).2.countP Event.isProbeGet ≤ fuel := by
  induction fuel with
  | zero => intro a; simp [verify_health_aux]
  | succ n ih =>
    intro a
    rcases h : b.probe a with status | msg
    · by_cases h200 : status = 200
      · subst h200
        simp [verify_health_aux, h, List.countP_cons, List.countP_nil,
          Event.isProbeGet]
      · simp only [verify_health_aux, h, if_neg h200]
        simp [List.countP_cons, Event.isProbeGet]
        have := ih (a + 1)
        omega
    · simp only [verify_health_aux, h]
      simp [List.countP_cons, Event.isProbeGet]
      have := ih (a + 1)
      omega

/-- When the loop exhausts its range and returns `false`, every one of its
`fuel` attempts was made. -/
theorem verify_health_aux_false_count (b : Behavior) (fuel : Nat) :
    ∀ a, (verify_health_aux b a fuel).1 = false →
      (verify_health_aux b a fuel).2.countP Event.isProbeGet = fuel := by
  induction fuel with
  | zero => intro a _; simp [verify_health_aux]
  | succ n ih =>
    intro a hfalse
    rcases h : b.probe a with status | msg
    · by_cases h200 : status = 200
      · subst h200
        rw [show (verify_health_aux b a (n + 1)).1 =
          true from by simp [verify_health_aux, h]] at hfalse
        exact absurd hfalse (by simp)
      · simp only [verify_health_aux, h, if_neg h200] at hfalse ⊢
        simp [List.countP_cons, Event.isProbeGet]
        have := ih (a + 1) (by simpa using hfalse)
        omega
    · simp only [verify_health_aux, h] at hfalse ⊢
      simp [List.countP_cons, Event.isProbeGet]
      have := ih (a + 1) (by simpa using hfalse)
      omega

/-- The loop stops at the first attempt whose probe returns 200: if attempt
`k` (0-based, within range) is the first to return 200, exactly `k + 1`
attempts are made. -/
theorem verify_health_aux_stops_at_first (b : Behavior) (fuel : Nat) :
    ∀ a k, k < fuel → b.probe (a + k) = .resp 200 →
      (∀ j, j < k → b.probe (a + j) ≠ .resp 200) →
      (verify_health_aux b a fuel).2.countP Event.isProbeGet = k + 1 := by
  induction fuel with
  | zero => intro a k hk; exact absurd hk (Nat.not_lt_zero k)
  | succ n ih =>
    intro a k hk h200 hmin
    cases k with
    | zero =>
      rw [Nat.add_zero] at h200
      simp [verify_health_aux, h200, List.countP_cons, List.countP_nil,
        Event.isProbeGet]
    | succ k =>
      have hne : b.probe a ≠ .resp 200 := by
        have := hmin 0 (Nat.succ_pos k)
        rwa [Nat.add_zero] at this
      have hrec : (verify_health_aux b (a + 1) n).2.countP
          Event.isProbeGet = k + 1 := by
        refine ih (a + 1) k (by omega) ?_ ?_
        · have e : a + 1 + k = a + (k + 1) := by omega
          rw [e]; exact h200
        · intro j hj
          have e : a + 1 + j = a + (j + 1) := by omega
          rw [e]; exact hmin (j + 1) (by omega)
      rcases h : b.probe a with status | msg
      · have h200' : status ≠ 200 := by
          rintro rfl; exact hne h
        simp only [verify_health_aux, h, if_neg h200']
        simp [List.countP_cons, Event.isProbeGet]
        omega
      · simp only [verify_health_aux, h]
        simp [List.countP_cons, Event.isProbeGet]
        omega

/-- The health-check loop never emits an `undo` event. -/
theorem verify_health_aux_no_undo (b : Behavior) (fuel : Nat) :
    ∀ a, Event.undo ∉ (verify_health_aux b a fuel).2 := by
  induction fuel with
  | zero => intro a; simp [verify_health_aux]
  | succ n ih =>
    intro a
    rcases h : b.probe a with status | msg
    · by_cases h200 : status = 200
      · subst h200; simp [verify_health_aux, h]
      · simp only [verify_health_aux, h, if_neg h200]
        simp [List.mem_cons]
        exact ih (a + 1)
    · simp only [verify_health_aux, h]
      simp [List.mem_cons]
      exact ih (a + 1)

/-- Any attempt that raised and appears in the loop's trace is immediately
followed by the warning log naming the attempt and a 10-second sleep. -/
theorem verify_health_aux_exn_followed (b : Behavior) (fuel : Nat) :
    ∀ a i m, b.probe i = .exn m →
      Event.probeGet i ∈ (verify_health_aux b a fuel).2 →
      ∃ pre suf, (verify_health_aux b a fuel).2 =
        pre ++ Event.probeGet i ::
          Event.log .warning ("Health check attempt " ++ toString (i + 1) ++
            " failed: " ++ m) :: Event.sleep 10 :: suf := by
  induction fuel with
  | zero => intro a i m _ hmem; simp [verify_health_aux] at hmem
  | succ n ih =>
    intro a i m hexn hmem
    rcases h : b.probe a with status | msg
    · by_cases h200 : status = 200
      · subst h200
        have htr : (verify_health_aux b a (n + 1)).2 =
            [Event.probeGet a, Event.log .info "Health check passed"] := by
          simp [verify_health_aux, h]
        rw [htr] at hmem
        simp at hmem
        subst hmem
        rw [h] at hexn
        exact ProbeOutcome.noConfusion hexn
      · have htr : (verify_health_aux b a (n + 1)).2 =
            Event.probeGet a :: (verify_health_aux b (a + 1) n).2 := by
          simp [verify_health_aux, h, h200]
        rw [htr] at hmem ⊢
        simp at hmem
        rcases hmem with rfl | hmem
        · rw [h] at hexn
          exact ProbeOutcome.noConfusion hexn
        · obtain ⟨pre, suf, heq⟩ := ih (a + 1) i m hexn hmem
          exact ⟨Event.probeGet a :: pre, suf, by rw [heq]; simp⟩
    · have htr : (verify_health_aux b a (n + 1)).2 =
          Event.probeGet a ::
            Event.log .warning ("Health check attempt " ++ toString (a + 1) ++
              " failed: " ++ msg) ::
            Event.sleep 10 :: (verify_health_aux b (a + 1) n).2 := by
        simp [verify_health_aux, h]
      rw [htr] at hmem ⊢
      simp at hmem
      rcases hmem with rfl | hmem
      · rw [h] at hexn
        injection hexn with hm
        subst hm
        exact ⟨[], (verify_health_aux b (i + 1) n).2, by simp⟩
      · obtain ⟨pre, suf, heq⟩ := ih (a + 1) i m hexn hmem
        exact ⟨Event.probeGet a ::
          Event.log .warning ("Health check attempt " ++ toString (a + 1) ++
            " failed: " ++ msg) :: Event.sleep 10 :: pre, suf,
          by rw [heq]; simp⟩

/-- With at least one iteration left, the loop's trace starts with the probe
of the current attempt. -/
theorem verify_health_aux_cons (b : Behavior) (n a : Nat) :
    ∃ t, (verify_health_aux b a (n + 1)).2 = Event.probeGet a :: t := by
  rcases h : b.probe a with status | msg
  · by_cases h200 : status = 200
    · subst h200
      exact ⟨[Event.log .info "Health check passed"],
        by simp [verify_health_aux, h]⟩
    · exact ⟨(verify_health_aux b (a + 1) n).2,
        by simp [verify_health_aux, h, h200]⟩
  · exact ⟨Event.log .warning ("Health check attempt " ++ toString (a + 1) ++
        " failed: " ++ msg) :: Event.sleep 10 ::
        (verify_health_aux b (a + 1) n).2,
      by simp [verify_health_aux, h]⟩

/-- Any attempt whose probe returned a non-200 status is immediately
followed in the loop's trace by the next probe attempt, or by nothing (when
the range is exhausted): no log line and no sleep are emitted for it. -/
theorem verify_health_aux_resp_followed (b : Behavior) (fuel : Nat) :
    ∀ a i s, b.probe i = .resp s → s ≠ 200 →
      Event.probeGet i ∈ (verify_health_aux b a fuel).2 →
      (∃ pre, (verify_health_aux b a fuel).2 = pre ++ [Event.probeGet i]) ∨
      (∃ pre suf, (verify_health_aux b a fuel).2 =
        pre ++ Event.probeGet i :: Event.probeGet (i + 1) :: suf) := by
  induction fuel with
  | zero => intro a i s _ _ hmem; simp [verify_health_aux] at hmem
  | succ n ih =>
    intro a i s hresp hs hmem
    rcases h : b.probe a with status | msg
    · by_cases h200 : status = 200
      · subst h200
        have htr : (verify_health_aux b a (n + 1)).2 =
            [Event.probeGet a, Event.log .info "Health check passed"] := by
          simp [verify_health_aux, h]
        rw [htr] at hmem
        simp at hmem
        subst hmem
        rw [h] at hresp
        injection hresp with h'
        exact absurd h'.symm hs
      · have htr : (verify_health_aux b a (n + 1)).2 =
            Event.probeGet a :: (verify_health_aux b (a + 1) n).2 := by
          simp [verify_health_aux, h, h200]
        rw [htr] at hmem ⊢
        simp at hmem
        rcases hmem with rfl | hmem
        · cases n with
          | zero =>
            left
            exact ⟨[], by simp [verify_health_aux]⟩
          | succ m =>
            right
            obtain ⟨t, ht⟩ := verify_health_aux_cons b m (i + 1)
            exact ⟨[], t, by rw [ht]; simp⟩
        · rcases ih (a + 1) i s hresp hs hmem with ⟨pre, hpre⟩ | ⟨pre, suf, hps⟩
          · exact Or.inl ⟨Event.probeGet a :: pre, by rw [hpre]; simp⟩
          · exact Or.inr ⟨Event.probeGet a :: pre, suf, by rw [hps]; simp⟩
    · have htr : (verify_health_aux b a (n + 1)).2 =
          Event.probeGet a ::
            Event.log .warning ("Health check attempt " ++ toString (a + 1) ++
              " failed: " ++ msg) ::
            Event.sleep 10 :: (verify_health_aux b (a + 1) n).2 := by
        simp [verify_health_aux, h]
      rw [htr] at hmem ⊢
      simp at hmem
      rcases hmem with rfl | hmem
      · rw [h] at hresp
        exact ProbeOutcome.noConfusion hresp
      · rcases ih (a + 1) i s hresp hs hmem with ⟨pre, hpre⟩ | ⟨pre, suf, hps⟩
        · exact Or.inl ⟨Event.probeGet a ::
            Event.log .warning ("Health check attempt " ++ toString (a + 1) ++
              " failed: " ++ msg) :: Event.sleep 10 :: pre,
            by rw [hpre]; simp⟩
        · exact Or.inr ⟨Event.probeGet a ::
            Event.log .warning ("Health check attempt " ++ toString (a + 1) ++
              " failed: " ++ msg) :: Event.sleep 10 :: pre, suf,
            by rw [hps]; simp⟩

/-! ## Theorems -/

/-- Counterexample to C1: with probe responses 503, 503, 200 the overall
result is `Success` after 3 attempts, but there are **no** 10-second sleeps
(the claim demands exactly 2): an attempt that fails with a non-200 HTTP
status is not followed by a log line or a sleep. -/
theorem probe_503_sequence_has_no_sleeps :
    (deploy cfgApi bProbes503).map Prod.fst =
      Except.ok DeployOutcome.Success ∧
    (deploy cfgApi bProbes503).map
      (fun r => r.2.countP Event.isProbeGet) = Except.ok 3 ∧
    (deploy cfgApi bProbes503).map
      (fun r => r.2.countP Event.isSleep10) = Except.ok 0 :=
  ⟨rfl, rfl, rfl⟩

/-- Claim C1, amended: Only a probe attempt that fails by raising an
exception (timeout or connection error) is followed — immediately — by a
log line naming the attempt and a 10-second sleep; an attempt that returns
a non-200 HTTP status proceeds to the next attempt with no log line and no
sleep.  Consequently, for probe responses 503, 503, 200 the overall result
is `Success` after 3 attempts with 0 inter-attempt delays, while for two
exception-failing attempts followed by a 200 it is `Success` after 3
attempts with exactly 2 delays of 10 seconds. -/
theorem health_failure_log_sleep_only_on_exception :
    (∀ b i m, b.probe i = .exn m →
      Event.probeGet i ∈ (verify_health b).2 →
      ∃ pre suf, (verify_health b).2 =
        pre ++ Event.probeGet i ::
          Event.log .warning ("Health check attempt " ++ toString (i + 1) ++
            " failed: " ++ m) :: Event.sleep 10 :: suf) ∧
    (∀ b i s, b.probe i = .resp s → s ≠ 200 →
      Event.probeGet i ∈ (verify_health b).2 →
      (∃ pre, (verify_health b).2 = pre ++ [Event.probeGet i]) ∨
      (∃ pre suf, (verify_health b).2 =
        pre ++ Event.probeGet i :: Event.probeGet (i + 1) :: suf)) ∧
    ((deploy cfgApi bProbes503).map
        (fun r => (r.1, r.2.countP Event.isProbeGet,
          r.2.countP Event.isSleep10)) =
      Except.ok (DeployOutcome.Success, 3, 0)) ∧
    ((deploy cfgApi bProbesExn).map
        (fun r => (r.1, r.2.countP Event.isProbeGet,
          r.2.countP Event.isSleep10)) =
      Except.ok (DeployOutcome.Success, 3, 2)) :=
  ⟨fun b i m hexn hmem =>
    verify_health_aux_exn_followed b 5 0 i m hexn hmem,
   fun b i s hresp hs hmem =>
    verify_health_aux_resp_followed b 5 0 i s hresp hs hmem, rfl, rfl⟩

/-- Witness for C1 (amended): attempt 0 of `bProbesExn` raised, and in the
trace it is followed by its warning log and a 10-second sleep; attempt 0 of
`bProbes503` returned 503 and in the trace it is immediately followed by the
next probe attempt — no log, no sleep. -/
theorem health_failure_log_sleep_only_on_exception_witness :
    (∃ pre suf, (verify_health bProbesExn).2 =
      pre ++ Event.probeGet 0 ::
        Event.log .warning ("Health check attempt " ++ toString (0 + 1) ++
          " failed: " ++ "timeout") :: Event.sleep 10 :: suf) ∧
    ((∃ pre, (verify_health bProbes503).2 = pre ++ [Event.probeGet 0]) ∨
      (∃ pre suf, (verify_health bProbes503).2 =
        pre ++ Event.probeGet 0 :: Event.probeGet 1 :: suf)) :=
  ⟨health_failure_log_sleep_only_on_exception.1 bProbesExn 0 "timeout" rfl
      (by decide),
   health_failure_log_sleep_only_on_exception.2.1 bProbes503 0 503 rfl
      (by decide) (by decide)⟩

/-- Claim C2: For every sequence of probe outcomes, the health-check phase
issues at most 5 probe attempts; it returns success exactly when some
attempt among the first 5 yields HTTP status 200 (stopping at the first
such attempt, so only `k + 1` attempts are made when attempt `k` is the
first to return 200); it reports failure (and `deploy` then returns
`HealthCheckFailed`) only after all 5 attempts have been made and failed. -/
theorem verify_health_five_attempts_first_200 (b : Behavior) :
    ((verify_health b).2.countP Event.isProbeGet ≤ 5) ∧
    ((verify_health b).1 = true ↔ ∃ k, k < 5 ∧ b.probe k = .resp 200) ∧
    ((verify_health b).1 = false →
      (verify_health b).2.countP Event.isProbeGet = 5) ∧
    (∀ k, k < 5 → b.probe k = .resp 200 →
      (∀ j, j < k → b.probe j ≠ .resp 200) →
      (verify_health b).2.countP Event.isProbeGet = k + 1) ∧
    (∀ cfg pu pr, b.updateRun = .ok pu → pu.returncode = 0 →
      b.rolloutRun = .ok pr → pr.returncode = 0 →
      ((deploy cfg b).map Prod.fst = Except.ok DeployOutcome.Success ↔
        (verify_health b).1 = true) ∧
      ((deploy cfg b).map Prod.fst = Except.ok DeployOutcome.HealthCheckFailed ↔
        (verify_health b).1 = false)) := by
  refine ⟨verify_health_aux_probe_count_le b 5 0, ?_, ?_, ?_, ?_⟩
  · simpa using verify_health_aux_true_iff b 5 0
  · exact verify_health_aux_false_count b 5 0
  · intro k hk h200 hmin
    exact verify_health_aux_stops_at_first b 5 0 k hk
      (by simpa using h200) (fun j hj => by simpa using hmin j hj)
  · intro cfg pu pr hu hu0 hr hr0
    rcases hv : (verify_health b).1 with _ | _
    · constructor
      · constructor
        · intro hs
          simp [deploy, deployTry, update_deployment, wait_for_rollout,
            hu, hu0, hr, hr0, verify_health, Except.map] at hs
          rw [show (verify_health_aux b 0 5).1 =
            false from hv] at hs
          simp at hs
        · intro ht; exact absurd ht (by simp)
      · constructor
        · intro _; rfl
        · intro _
          simp only [deploy, deployTry, update_deployment, wait_for_rollout,
            hu, hr]
          simp [hu0, hr0, verify_health] at hv ⊢
          rw [hv]
          simp [Except.map]
    · constructor
      · constructor
        · intro _; rfl
        · intro _
          simp only [deploy, deployTry, update_deployment, wait_for_rollout,
            hu, hr]
          simp [hu0, hr0, verify_health] at hv ⊢
          rw [hv]
          simp [Except.map]
      · constructor
        · intro hs
          simp [deploy, deployTry, update_deployment, wait_for_rollout,
            hu, hu0, hr, hr0, verify_health, Except.map] at hs
          rw [show (verify_health_aux b 0 5).1 =
            true from hv] at hs
          simp at hs
        · intro ht; exact absurd ht (by simp)

/-- Witness for C2 at the probe sequence 503, 503, 200: the health check
succeeds and makes exactly 3 attempts. -/
theorem verify_health_five_attempts_first_200_witness :
    (verify_health bProbes503).1 = true ∧
    (verify_health bProbes503).2.countP Event.isProbeGet = 3 := by
  constructor
  · exact (verify_health_five_attempts_first_200 bProbes503).2.1.mpr
      ⟨2, by omega, by decide⟩
  · refine (verify_health_five_attempts_first_200 bProbes503).2.2.2.1
      2 (by omega) (by decide) ?_
    intro j hj
    interval_cases j <;> decide

/-- Claim C3: For every config with `rollback_on_failure = true`, if the update
step succeeds and the rollout wait fails, then Undo is invoked exactly once
and the deploy result is `RolledBack` (a failure outcome: the Python return
value is `False`), and that result is the same regardless of whether the
Undo command itself succeeds or fails (the return code `un` is arbitrary and
absent from the conclusion). -/
theorem rollout_failure_with_rollback_rolled_back
    (cfg : DeployConfig) (b : Behavior) (pu pr un : CompletedProcess)
    (hflag : cfg.rollback_on_failure = true)
    (hu : b.updateRun = .ok pu) (hu0 : pu.returncode = 0)
    (hr : b.rolloutRun = .ok pr) (hr0 : pr.returncode ≠ 0)
    (hun : b.undoRun = .ok un) :
    (deploy cfg b).map Prod.fst = Except.ok DeployOutcome.RolledBack ∧
    (deploy cfg b).map (fun r => r.2.countP Event.isUndo) = Except.ok 1 ∧
    DeployOutcome.RolledBack.toBool = false := by
  simp [deploy, deployTry, update_deployment, wait_for_rollout, rollback,
    hu, hu0, hr, hr0, hun, hflag, DeployOutcome.toBool, Event.isUndo,
    Except.map, List.countP_cons, List.countP_nil]

/-- Witness for C3 at the spec's scenario: config `cfgApi`, update return
code 0, rollout return code 1, undo runs. -/
theorem rollout_failure_with_rollback_rolled_back_witness :
    cfgApi.rollback_on_failure = true ∧
    (deploy cfgApi bRolloutFail).map Prod.fst =
      Except.ok DeployOutcome.RolledBack ∧
    (deploy cfgApi bRolloutFail).map (fun r => r.2.countP Event.isUndo) =
      Except.ok 1 := by
  refine ⟨rfl, ?_, ?_⟩
  · exact (rollout_failure_with_rollback_rolled_back cfgApi bRolloutFail
      okProc failProc okProc rfl rfl rfl rfl (by decide) rfl).1
  · exact (rollout_failure_with_rollback_rolled_back cfgApi bRolloutFail
      okProc failProc okProc rfl rfl rfl rfl (by decide) rfl).2.1

/-- Claim C4: For every config, if the update step fails with a non-zero
return code, the deploy result is `UpdateFailed` and neither
`WaitForRollout` nor `Undo` is ever invoked in that run. -/
theorem update_failure_update_failed_no_further_calls
    (cfg : DeployConfig) (b : Behavior) (pu : CompletedProcess)
    (hu : b.updateRun = .ok pu) (hne : pu.returncode ≠ 0) :
    (deploy cfg b).map Prod.fst = Except.ok DeployOutcome.UpdateFailed ∧
    (deploy cfg b).map
      (fun r => (r.2.countP Event.isWaitForRollout,
                 r.2.countP Event.isUndo)) = Except.ok (0, 0) ∧
    DeployOutcome.UpdateFailed.toBool = false := by
  simp [deploy, deployTry, update_deployment, hu, hne,
    DeployOutcome.toBool, Event.isUndo, Event.isWaitForRollout,
    Except.map, List.countP_cons, List.countP_nil]

/-- Witness for C4: update returns code 1. -/
theorem update_failure_update_failed_no_further_calls_witness :
    bUpdateFail.updateRun = Except.ok failProc ∧ failProc.returncode ≠ 0 ∧
    (deploy cfgApi bUpdateFail).map Prod.fst =
      Except.ok DeployOutcome.UpdateFailed ∧
    (deploy cfgApi bUpdateFail).map
      (fun r => (r.2.countP Event.isWaitForRollout,
                 r.2.countP Event.isUndo)) = Except.ok (0, 0) := by
  refine ⟨rfl, by decide, ?_, ?_⟩
  · exact (update_failure_update_failed_no_further_calls cfgApi bUpdateFail
      failProc rfl (by decide)).1
  · exact (update_failure_update_failed_no_further_calls cfgApi bUpdateFail
      failProc rfl (by decide)).2.1

/-- Claim C5: For every config with `rollback_on_failure = false`, if the
rollout wait fails then Undo is never invoked and the deploy result is
`RolloutFailed` (a failure outcome). -/
theorem rollout_failure_without_rollback_rollout_failed
    (cfg : DeployConfig) (b : Behavior) (pu pr : CompletedProcess)
    (hflag : cfg.rollback_on_failure = false)
    (hu : b.updateRun = .ok pu) (hu0 : pu.returncode = 0)
    (hr : b.rolloutRun = .ok pr) (hr0 : pr.returncode ≠ 0) :
    (deploy cfg b).map Prod.fst = Except.ok DeployOutcome.RolloutFailed ∧
    (deploy cfg b).map (fun r => r.2.countP Event.isUndo) = Except.ok 0 ∧
    DeployOutcome.RolloutFailed.toBool = false := by
  simp [deploy, deployTry, update_deployment, wait_for_rollout,
    hu, hu0, hr, hr0, hflag, DeployOutcome.toBool, Event.isUndo,
    Except.map, List.countP_cons, List.countP_nil]

/-- Witness for C5: same behavior as the C3 scenario but with
`rollback_on_failure = false`. -/
theorem rollout_failure_without_rollback_rollout_failed_witness :
    ({ cfgApi with rollback_on_failure := false } :
        DeployConfig).rollback_on_failure = false ∧
    (deploy { cfgApi with rollback_on_failure := false } bRolloutFail).map
      Prod.fst = Except.ok DeployOutcome.RolloutFailed ∧
    (deploy { cfgApi with rollback_on_failure := false } bRolloutFail).map
      (fun r => r.2.countP Event.isUndo) = Except.ok 0 := by
  refine ⟨rfl, ?_, ?_⟩
  · exact (rollout_failure_without_rollback_rollout_failed
      { cfgApi with rollback_on_failure := false } bRolloutFail
      okProc failProc rfl rfl rfl rfl (by decide)).1
  · exact (rollout_failure_without_rollback_rollout_failed
      { cfgApi with rollback_on_failure := false } bRolloutFail
      okProc failProc rfl rfl rfl rfl (by decide)).2.1

/-- Claim C6: In every run of `deploy`, the `undo` command appears in the
event trace only when `rollback_on_failure` is set and the rollout wait
returned a non-zero code: rollback is triggered only from the rollout-wait
failure branch.  In particular a health-check failure (which presupposes
that update and rollout wait both succeeded) never causes Undo, for every
config including those with `rollback_on_failure = true`. -/
theorem undo_only_from_rollout_failure_branch
    (cfg : DeployConfig) (b : Behavior) (out : DeployOutcome)
    (evs : List Event)
    (hd : deploy cfg b = .ok (out, evs)) (hin : Event.undo ∈ evs) :
    cfg.rollback_on_failure = true ∧
    ∃ pr, b.rolloutRun = .ok pr ∧ pr.returncode ≠ 0 := by
  rcases hup : b.updateRun with e | pu
  · simp [deploy, deployTry, update_deployment, hup] at hd
    rcases hd with ⟨_, hevs⟩
    subst hevs
    simp at hin
  · by_cases hunz : pu.returncode = 0
    · rcases hrr : b.rolloutRun with e | pr
      · simp [deploy, deployTry, update_deployment, wait_for_rollout,
          hup, hunz, hrr] at hd
        rcases hd with ⟨_, hevs⟩
        subst hevs
        simp at hin
      · by_cases hrz : pr.returncode = 0
        · by_cases hv : (verify_health_aux b 0 5).1 = true <;>
          · simp [deploy, deployTry, update_deployment, wait_for_rollout,
              hup, hunz, hrr, hrz, verify_health, hv] at hd
            rcases hd with ⟨_, hevs⟩
            subst hevs
            simp at hin
            exact absurd hin (verify_health_aux_no_undo b 5 0)
        · by_cases hfl : cfg.rollback_on_failure
          · exact ⟨hfl, pr, rfl, hrz⟩
          · simp [deploy, deployTry, update_deployment, wait_for_rollout,
              hup, hunz, hrr, hrz, hfl] at hd
            rcases hd with ⟨_, hevs⟩
            subst hevs
            simp at hin
    · simp [deploy, deployTry, update_deployment, hup, hunz] at hd
      rcases hd with ⟨_, hevs⟩
      subst hevs
      simp at hin

/-- Witness for C6 at the rollout-failure scenario: the trace does contain
`undo`, and the theorem recovers the flag and the failed rollout wait. -/
theorem undo_only_from_rollout_failure_branch_witness :
    cfgApi.rollback_on_failure = true ∧
    ∃ pr, bRolloutFail.rolloutRun = Except.ok pr ∧ pr.returncode ≠ 0 :=
  undo_only_from_rollout_failure_branch cfgApi bRolloutFail
    DeployOutcome.RolledBack
    [Event.log .info "Starting deployment of api:v1", Event.applyUpdate,
     Event.log .info "Deployment updated successfully", Event.waitForRollout,
     Event.log .warning "Rolling back deployment", Event.undo]
    rfl (by decide)

/-- Claim C9: For every config and every behavior of the collaborators —
including behaviors in which any of the subprocess calls raises an
exception — `deploy` never lets a fault propagate to its caller: the
`try/except Exception` converts every escaping exception into a classified
outcome, so the result is always `Except.ok`. -/
theorem deploy_never_propagates (cfg : DeployConfig) (b : Behavior) :
    ∃ out evs, deploy cfg b = .ok (out, evs) := by
  rcases h : deployTry cfg b with ⟨e, evs⟩ | ⟨out, evs⟩
  · exact ⟨.ExceptionCaught e,
      evs ++ [.log .error ("Deployment failed: " ++ e)], by simp [deploy, h]⟩
  · exact ⟨out, evs, by simp [deploy, h]⟩

/-- Claim C10: If the update step or the rollout-wait step raises an exception
(rather than returning a non-zero command status), `deploy` returns a
failure outcome (`ExceptionCaught`, Python value `False`) without invoking
Undo, for every config — including those with `rollback_on_failure = true`:
the exception path bypasses the rollback branch. -/
theorem exception_in_update_or_rollout_bypasses_rollback
    (cfg : DeployConfig) (b : Behavior) (e : String) :
    (b.updateRun = .error e →
      (deploy cfg b).map Prod.fst =
        Except.ok (DeployOutcome.ExceptionCaught e) ∧
      (deploy cfg b).map (fun r => r.2.countP Event.isUndo) = Except.ok 0 ∧
      (DeployOutcome.ExceptionCaught e).toBool = false) ∧
    (∀ pu, b.updateRun = .ok pu → pu.returncode = 0 →
      b.rolloutRun = .error e →
      (deploy cfg b).map Prod.fst =
        Except.ok (DeployOutcome.ExceptionCaught e) ∧
      (deploy cfg b).map (fun r => r.2.countP Event.isUndo) = Except.ok 0 ∧
      (DeployOutcome.ExceptionCaught e).toBool = false) := by
  constructor
  · intro hu
    simp [deploy, deployTry, update_deployment, hu, DeployOutcome.toBool,
      Event.isUndo, Except.map, List.countP_cons, List.countP_nil]
  · intro pu hu hu0 hr
    simp [deploy, deployTry, update_deployment, wait_for_rollout, hu, hu0,
      hr, DeployOutcome.toBool, Event.isUndo, Except.map, List.countP_cons,
      List.countP_nil]

/-- Witness for C10: the update step raises, `rollback_on_failure` is true,
yet no Undo happens and the run ends in `ExceptionCaught`. -/
theorem exception_in_update_or_rollout_bypasses_rollback_witness :
    bUpdateRaises.updateRun = Except.error "FileNotFoundError" ∧
    cfgApi.rollback_on_failure = true ∧
    (deploy cfgApi bUpdateRaises).map Prod.fst =
      Except.ok (DeployOutcome.ExceptionCaught "FileNotFoundError") ∧
    (deploy cfgApi bUpdateRaises).map (fun r => r.2.countP Event.isUndo) =
      Except.ok 0 := by
  refine ⟨rfl, rfl, ?_, ?_⟩
  · exact ((exception_in_update_or_rollout_bypasses_rollback cfgApi
      bUpdateRaises "FileNotFoundError").1 rfl).1
  · exact ((exception_in_update_or_rollout_bypasses_rollback cfgApi
      bUpdateRaises "FileNotFoundError").1 rfl).2.1

/-- Counterexample to C7: `load_config` accepts a config with
`timeout_seconds = 0` and `replicas = 0`, the spec's invariant is false for
the resulting `DeployConfig`, and `main` runs a deployment with it — so
configuration loading does not establish (or enforce) the invariant. -/
theorem load_config_accepts_invariant_violating_config :
    load_config (some dataBad) = Except.ok cfgBad ∧
    configInvariant cfgBad = false ∧
    (main_run (some dataBad) "v2" bUpdateFail).2.map
      (fun r => configInvariant r.1) = some false := by
  refine ⟨rfl, by decide, by decide⟩

/-- Claim C7, amended: `load_config` performs no validation: each field value
present in the config file is passed through to the `DeployConfig`
unchanged, and absent optional fields receive the dataclass defaults
(`namespace = "default"`, `replicas = 3`, `health_check_path = "/health"`,
`timeout_seconds = 300`, `rollback_on_failure = true`).  The spec's
invariant (timeout > 0, replicas ≥ 1, DNS-label-safe names) is not
established before deployment: a config violating it loads successfully and
is deployed. -/
theorem load_config_passes_values_through_unvalidated
    (d : ConfigData) (cfg : DeployConfig)
    (h : load_config (some d) = .ok cfg) :
    d.service_name = some cfg.service_name ∧
    d.image_tag = some cfg.image_tag ∧
    cfg.«namespace» = d.«namespace».getD "default" ∧
    cfg.replicas = d.replicas.getD 3 ∧
    cfg.health_check_path = d.health_check_path.getD "/health" ∧
    cfg.timeout_seconds = d.timeout_seconds.getD 300 ∧
    cfg.rollback_on_failure = d.rollback_on_failure.getD true := by
  by_cases hex : d.extra_keys = []
  · rcases hsn : d.service_name with _ | sn
    · simp [load_config, hex, hsn] at h
    · rcases hit : d.image_tag with _ | it
      · simp [load_config, hex, hsn, hit] at h
      · simp [load_config, hex, hsn, hit] at h
        subst h
        simp [hsn, hit]
  · simp [load_config, hex] at h

/-- Witness for C7 (amended): the pass-through at `dataBad`. -/
theorem load_config_passes_values_through_unvalidated_witness :
    load_config (some dataBad) = Except.ok cfgBad ∧
    cfgBad.timeout_seconds = dataBad.timeout_seconds.getD 300 ∧
    dataBad.service_name = some cfgBad.service_name := by
  refine ⟨rfl, ?_, ?_⟩
  · exact (load_config_passes_values_through_unvalidated dataBad cfgBad
      rfl).2.2.2.2.2.1
  · exact (load_config_passes_values_through_unvalidated dataBad cfgBad
      rfl).1

/-- Counterexample to C8: a config file supplying only the recognized
fields (`service_name`, `namespace`, `replicas`, `health_check_path`,
`timeout_seconds`, `rollback_on_failure`) and no `image_tag` field does
*not* load successfully — `DeployConfig(**data)` raises a `TypeError`
because the dataclass field `image_tag` has no default — and `main` exits
with code 1 without deploying. -/
theorem config_without_image_tag_fails_to_load :
    load_config (some dataNoImageTag) =
      Except.error "TypeError: missing required argument" ∧
    main_run (some dataNoImageTag) "v9" bProbes503 = (1, none) :=
  ⟨rfl, rfl⟩

/-- Claim C8, amended: Whenever a deployment runs, the `image_tag` it
deploys equals the CLI's second positional argument regardless of the
config file's contents; however, the config file must itself contain an
`image_tag` field (whose value is then discarded): loading succeeds exactly
when `service_name` and `image_tag` are both present and no unrecognized
key is supplied. -/
theorem image_tag_from_cli_and_required_in_file
    (d : ConfigData) (tag : String) (b : Behavior) :
    (∀ code cfg out evs,
      main_run (some d) tag b = (code, some (cfg, out, evs)) →
      cfg.image_tag = tag) ∧
    ((∃ cfg, load_config (some d) = Except.ok cfg) ↔
      d.service_name.isSome = true ∧ d.image_tag.isSome = true ∧
      d.extra_keys = []) := by
  constructor
  · intro code cfg out evs hm
    rcases hl : load_config (some d) with e | cfg0
    · simp [main_run, hl] at hm
    · rcases hdep : deploy { cfg0 with image_tag := tag } b with e | ro
      · simp [main_run, hl, hdep] at hm
      · rcases ro with ⟨o, evs'⟩
        simp [main_run, hl, hdep] at hm
        rcases hm with ⟨_, hcfg, _⟩
        rw [← hcfg]
  · constructor
    · rintro ⟨cfg, hcfg⟩
      by_cases hex : d.extra_keys = []
      · rcases hsn : d.service_name with _ | sn
        · simp [load_config, hex, hsn] at hcfg
        · rcases hit : d.image_tag with _ | it
          · simp [load_config, hex, hsn, hit] at hcfg
          · exact ⟨by simp [hsn], by simp [hit], hex⟩
      · simp [load_config, hex] at hcfg
    · rintro ⟨hsn, hit, hex⟩
      rcases hsn' : d.service_name with _ | sn
      · rw [hsn'] at hsn; simp at hsn
      · rcases hit' : d.image_tag with _ | it
        · rw [hit'] at hit; simp at hit
        · refine ⟨{ service_name := sn
                    image_tag := it
                    «namespace» := d.«namespace».getD "default"
                    replicas := d.replicas.getD 3
                    health_check_path := d.health_check_path.getD "/health"
                    timeout_seconds := d.timeout_seconds.getD 300
                    rollback_on_failure := d.rollback_on_failure.getD true },
            ?_⟩
          simp [load_config, hex, hsn', hit']

/-- Witness for C8 (amended): the config file supplies
`image_tag = "from-file"`, the CLI supplies `"v9"`, and the deployed config
carries `"v9"`. -/
theorem image_tag_from_cli_and_required_in_file_witness :
    main_run (some dataFull) "v9" bProbes503 =
      (0, some (cfgFullDeployed, DeployOutcome.Success, evsFullRun)) ∧
    cfgFullDeployed.image_tag = "v9" ∧
    (∃ cfg, load_config (some dataFull) = Except.ok cfg) := by
  have hm : main_run (some dataFull) "v9" bProbes503 =
      (0, some (cfgFullDeployed, DeployOutcome.Success, evsFullRun)) := rfl
  exact ⟨hm, (image_tag_from_cli_and_required_in_file dataFull "v9"
      bProbes503).1 0 cfgFullDeployed DeployOutcome.Success evsFullRun hm,
    (image_tag_from_cli_and_required_in_file dataFull "v9" bProbes503).2.mpr
      ⟨rfl, rfl, rfl⟩⟩

end DeployScript
